import Mathlib

/-!
Verification of the Smart To-Do App (`main.py`) against its specification.

The Python source is shallowly embedded: MySQL tables become Lean lists of
structures, `datetime.date` becomes a proleptic-Gregorian `PyDate` record
(with `toOrdinal` mirroring CPython's `date.toordinal`, so `timedelta`
arithmetic and `date.weekday()` become integer arithmetic), SQL predicates
become decidable Lean predicates, and the Twilio call becomes an explicit
environment of externally determined outcomes.
-/

namespace TodoApp

/-! ## Dates: model of Python `datetime.date` -/

/-- A proleptic Gregorian calendar date, mirroring Python `datetime.date`. -/
structure PyDate where
  year : Int
  month : Int
  day : Int
deriving DecidableEq, Repr

/-- CPython `_is_leap`: `year % 4 == 0 and (year % 100 != 0 or year % 400 == 0)`. -/
def isLeap (y : Int) : Bool :=
  y % 4 == 0 && (y % 100 != 0 || y % 400 == 0)

/-- Number of days in month `m` of year `y` (CPython `_days_in_month`). -/
def daysInMonth (y m : Int) : Int :=
  if m = 2 then (if isLeap y then 29 else 28)
  else if m = 4 ∨ m = 6 ∨ m = 9 ∨ m = 11 then 30
  else 31

/-- A structurally valid date: month in 1..12 and day within the month.
Python `date` additionally bounds the year to 1..9999. -/
def PyDate.Valid (d : PyDate) : Prop :=
  1 ≤ d.year ∧ d.year ≤ 9999 ∧
  1 ≤ d.month ∧ d.month ≤ 12 ∧
  1 ≤ d.day ∧ d.day ≤ daysInMonth d.year d.month

instance (d : PyDate) : Decidable d.Valid := by
  unfold PyDate.Valid; infer_instance

/-- CPython `_days_before_month` lookup table (non-leap cumulative days). -/
def daysBeforeMonthTable (m : Int) : Int :=
  if m = 1 then 0
  else if m = 2 then 31
  else if m = 3 then 59
  else if m = 4 then 90
  else if m = 5 then 120
  else if m = 6 then 151
  else if m = 7 then 181
  else if m = 8 then 212
  else if m = 9 then 243
  else if m = 10 then 273
  else if m = 11 then 304
  else 334

/-- CPython `_days_before_month year month`. -/
def daysBeforeMonth (y m : Int) : Int :=
  daysBeforeMonthTable m + (if 2 < m ∧ isLeap y then 1 else 0)

/-- CPython `_days_before_year year`: days before January 1st of `year`. -/
def daysBeforeYear (y : Int) : Int :=
  (y - 1) * 365 + (y - 1) / 4 - (y - 1) / 100 + (y - 1) / 400

/-- CPython `date.toordinal`: day 1 is January 1st of year 1 (a Monday). -/
def toOrdinal (d : PyDate) : Int :=
  daysBeforeYear d.year + daysBeforeMonth d.year d.month + d.day

/-- Python `date.weekday()` on an ordinal: `(toordinal + 6) % 7`, Monday = 0. -/
def weekdayOfOrdinal (o : Int) : Int := (o + 6) % 7

/-- Python `date.weekday()`: 0 = Monday .. 6 = Sunday. -/
def PyDate.weekday (d : PyDate) : Int := weekdayOfOrdinal (toOrdinal d)

/-- Python `date.strftime "%A"`: the English weekday name. -/
def PyDate.dayName (d : PyDate) : String :=
  if d.weekday = 0 then "Monday"
  else if d.weekday = 1 then "Tuesday"
  else if d.weekday = 2 then "Wednesday"
  else if d.weekday = 3 then "Thursday"
  else if d.weekday = 4 then "Friday"
  else if d.weekday = 5 then "Saturday"
  else "Sunday"

/-- Python `d1 < d2` on dates (equivalent to ordinal comparison). -/
def dateLt (a b : PyDate) : Bool := toOrdinal a < toOrdinal b

/-- Python `d + timedelta(days := 1)`, written out on the calendar fields. -/
def nextDay (d : PyDate) : PyDate :=
  if d.day < daysInMonth d.year d.month then ⟨d.year, d.month, d.day + 1⟩
  else if d.month < 12 then ⟨d.year, d.month + 1, 1⟩
  else ⟨d.year + 1, 1, 1⟩

/-- Python `d + timedelta(days := n)` for `n ≥ 0`. -/
def addDays (d : PyDate) (n : Nat) : PyDate := Nat.rec d (fun _ ih => nextDay ih) n

/-! ## Data model: the `tasks` table -/

/-- `status ENUM('Pending','Completed')`. -/
inductive Status where
  | Pending
  | Completed
deriving DecidableEq, Repr

/-- `priority ENUM('Low','Medium','High')`. -/
inductive Priority where
  | Low
  | Medium
  | High
deriving DecidableEq, Repr

/-- `task_type ENUM('One-time','Daily','Weekly','Monthly')`. -/
inductive TaskType where
  | Onetime
  | Daily
  | Weekly
  | Monthly
deriving DecidableEq, Repr

/-- A row of the `tasks` table. Nullable columns are `Option`s. -/
structure Task where
  id : Int
  title : String
  description : String
  status : Status
  priority : Priority
  task_type : TaskType
  week_days : Option String
  monthly_date : Option Int
  end_date : Option PyDate
  last_completed : Option PyDate
  completed_at : Option PyDate
deriving DecidableEq, Repr

/-- Helper for `pySplit`: scan the characters, cutting at each comma. -/
def pySplitAux : List Char → List Char → List String
  | [], acc => [String.mk acc.reverse]
  | c :: cs, acc =>
      if c = ',' then String.mk acc.reverse :: pySplitAux cs []
      else pySplitAux cs (c :: acc)

/-- Python `s.split(',')`: split at every comma, keeping empty pieces; on
`""` it returns `[""]`. -/
def pySplit (s : String) : List String := pySplitAux s.toList []

/-- Python truthiness of a nullable string: `None` and `""` are falsy. -/
def pyTruthyStr (s : Option String) : Bool :=
  match s with
  | none => false
  | some v => v ≠ ""

/-- Python truthiness of a nullable int: `None` and `0` are falsy. -/
def pyTruthyInt (n : Option Int) : Bool :=
  match n with
  | none => false
  | some v => v ≠ 0

/-! ## Recurrence evaluation (`send_daily_summary`, lines 423-450)

`send_daily_summary` collects `tasks_today` as the union of four queries:
One-time tasks with `end_date = today`, all Daily tasks, Weekly tasks with
`day_name in task['week_days'].split(',')` (guarded by truthiness of
`week_days`), and Monthly tasks with `monthly_date = day_of_month`.
`activeToday` is the resulting membership predicate for a single task. -/

/-- Whether `send_daily_summary` running on date `today` includes task `t`
in `tasks_today`. -/
def activeToday (t : Task) (today : PyDate) : Bool :=
  match t.task_type with
  | .Onetime => t.end_date == some today
  | .Daily => true
  | .Weekly =>
      match t.week_days with
      | none => false
      | some w => w ≠ "" && (pySplit w).contains today.dayName
  | .Monthly => t.monthly_date == some today.day

/-! ## Dashboard statistics (`task_stats`, lines 733-750) -/

/-- The loop body of `task_stats` deciding whether one task increments the
`overdue` counter: Pending tasks only; One-time overdue when its `end_date`
is non-NULL and before today; any other (recurring) type overdue when
`last_completed` is NULL or before today. -/
def isOverdue (t : Task) (today : PyDate) : Bool :=
  if t.status ≠ .Pending then false
  else if t.task_type = .Onetime then
    match t.end_date with
    | none => false
    | some e => dateLt e today
  else
    match t.last_completed with
    | none => true
    | some lc => dateLt lc today

/-- The `overdue` metric shown by `task_stats`. -/
def overdueStat (tasks : List Task) (today : PyDate) : Nat :=
  tasks.countP (fun t => isOverdue t today)

/-! ## Task status updates (`update_task_status`, lines 155-169; toggle in
`main`, lines 1044-1048)

`update_task_status` branches on Python truthiness of `last_completed`:
with a date it sets `status`, `last_completed` and `completed_at`; with
`None` it runs `UPDATE tasks SET status=%s WHERE id=%s`, touching only
`status`. -/

/-- `update_task_status(task_id, new_status, last_completed)` applied to the
`tasks` table. -/
def update_task_status (tasks : List Task) (task_id : Int) (new_status : Status)
    (last_completed : Option PyDate) : List Task :=
  if last_completed.isSome then
    tasks.map (fun t =>
      if t.id = task_id then
        { t with status := new_status, last_completed := last_completed,
                 completed_at := last_completed }
      else t)
  else
    tasks.map (fun t => if t.id = task_id then { t with status := new_status } else t)

/-- The Toggle Status button handler in `main`: completing stamps today,
un-completing passes `None`. -/
def toggleStatus (tasks : List Task) (t : Task) (today : PyDate) : List Task :=
  let new_status := if t.status = .Pending then Status.Completed else Status.Pending
  let last_completed := if new_status = .Completed then some today else none
  update_task_status tasks t.id new_status last_completed

/-! ## Goals (`save_goal`, `get_current_goal`, `get_completed_count`,
lines 193-284; progress display in `main`, lines 879-892)

Goal windows are stored as `DATE` columns; since valid dates correspond
one-to-one with their ordinals, window endpoints are carried as ordinals
(`toOrdinal` images) in the embedding. -/

/-- `period ENUM('Weekly','Monthly')`. -/
inductive Period where
  | Weekly
  | Monthly
deriving DecidableEq, Repr

/-- A row of the `goals` table, window endpoints as date ordinals. -/
structure Goal where
  id : Int
  period : Period
  target_count : Int
  start_date : Int
  end_date : Int
deriving DecidableEq, Repr

/-- The period window computed identically in `save_goal`, `get_current_goal`
and `get_completed_count`: Weekly is `today - timedelta(today.weekday())`
through 6 days later; Monthly is the 1st of the month through the day before
the 1st of the next month. -/
def goalWindow (period : Period) (today : PyDate) : Int × Int :=
  match period with
  | .Weekly =>
      let s := toOrdinal today - today.weekday
      (s, s + 6)
  | .Monthly =>
      let s := toOrdinal ⟨today.year, today.month, 1⟩
      let e := if today.month = 12
        then toOrdinal ⟨today.year + 1, 1, 1⟩ - 1
        else toOrdinal ⟨today.year, today.month + 1, 1⟩ - 1
      (s, e)

/-- `AUTO_INCREMENT` id for a fresh `goals` row. -/
def nextGoalId (goals : List Goal) : Int :=
  (goals.map Goal.id).foldr max 0 + 1

/-- `save_goal(period, target_count)` on date `today`: select the row whose
`(period, start_date, end_date)` equals the current window; update its
`target_count` if found, else insert a new row. -/
def save_goal (goals : List Goal) (period : Period) (target_count : Int)
    (today : PyDate) : List Goal :=
  match goals.find? (fun g =>
      g.period == period && g.start_date == (goalWindow period today).1 &&
      g.end_date == (goalWindow period today).2) with
  | some existing =>
      goals.map (fun g =>
        if g.id = existing.id then { g with target_count := target_count } else g)
  | none =>
      goals ++ [⟨nextGoalId goals, period, target_count,
                 (goalWindow period today).1, (goalWindow period today).2⟩]

/-- `get_current_goal(period)` on date `today`: the first `goals` row whose
`(period, start_date, end_date)` equals the current window. -/
def get_current_goal (goals : List Goal) (period : Period) (today : PyDate) :
    Option Goal :=
  let w := goalWindow period today
  goals.find? (fun g =>
    g.period == period && g.start_date == w.1 && g.end_date == w.2)

/-- `get_completed_count(period)` on date `today`:
`COUNT(*) WHERE status="Completed" AND completed_at BETWEEN start AND end`
(SQL `BETWEEN` is inclusive; a NULL `completed_at` never matches). -/
def get_completed_count (tasks : List Task) (period : Period) (today : PyDate) :
    Nat :=
  let w := goalWindow period today
  tasks.countP (fun t =>
    t.status == .Completed &&
    match t.completed_at with
    | none => false
    | some c => w.1 ≤ toOrdinal c && toOrdinal c ≤ w.2)

/-- The sidebar progress value in `main`:
`min(completed_count / current_goal['target_count'], 1.0)`. -/
def displayedProgress (completed_count : Nat) (target_count : Int) : ℚ :=
  min ((completed_count : ℚ) / (target_count : ℚ)) 1

/-- The goal progress shown for `period` on date `today` (when a current
goal row exists with the given `target_count`). -/
def goalProgressShown (tasks : List Task) (period : Period) (today : PyDate)
    (target_count : Int) : ℚ :=
  displayedProgress (get_completed_count tasks period today) target_count

/-! ## Adding tasks (`add_task`, lines 135-144; sidebar form handler in
`main`, lines 850-856) -/

/-- Characters removed by Python `str.strip()` (the ASCII whitespace set). -/
def pySpace (c : Char) : Bool :=
  c = ' ' || c = '\t' || c = '\n' || c = '\x0d' || c = '\x0b' || c = '\x0c'

/-- Python `s.strip()`: drop leading and trailing whitespace. -/
def pyStrip (s : String) : String :=
  String.mk (((s.toList.dropWhile pySpace).reverse.dropWhile pySpace).reverse)

/-- `add_task(...)`: insert a row with `last_completed = NULL` and the table
defaults `status = Pending`, `completed_at = NULL`. -/
def add_task (tasks : List Task) (newId : Int) (title desc : String)
    (priority : Priority) (task_type : TaskType) (week_days : Option String)
    (monthly_date : Option Int) (end_date : Option PyDate) : List Task :=
  tasks ++ [⟨newId, title, desc, .Pending, priority, task_type, week_days,
             monthly_date, end_date, none, none⟩]

/-- The Add Task button handler in `main`: `if title.strip():` insert and
report success, `else` report the inline error "Title is required". The
returned Bool is `true` when the inline error was shown. -/
def submitAddTask (tasks : List Task) (newId : Int) (title desc : String)
    (priority : Priority) (task_type : TaskType) (week_days : Option String)
    (monthly_date : Option Int) (end_date : Option PyDate) :
    List Task × Bool :=
  if pyStrip title ≠ "" then
    (add_task tasks newId title desc priority task_type week_days monthly_date
      end_date, false)
  else
    (tasks, true)

/-! ## SMS dispatch (`send_sms`, lines 367-392)

The external world is an explicit environment: the outcome of constructing
the Twilio client, the environment variables read with `os.environ.get`, and
the attempt-indexed outcome of `client.messages.create` (`Except.error` is a
raised exception, `Except.ok` the created message's `sid`). -/

/-- External outcomes visible to `send_sms`. -/
structure SmsEnv where
  clientResult : Except String Unit
  twilio_phone_number : Option String
  user_phone_number : Option String
  createResult : Nat → Except String String

/-- Python `s.isdigit()` (ASCII digits) on a character list: false when
empty. -/
def pyIsDigit (cs : List Char) : Bool :=
  cs ≠ [] && cs.all Char.isDigit

/-- The E.164 check in `send_sms`:
`to_number.startswith('+') and to_number[1:].isdigit()`. -/
def validPhone (to_number : String) : Bool :=
  match to_number.toList with
  | [] => false
  | c :: rest => c == '+' && pyIsDigit rest

/-- The body of the `try` block in `send_sms`, before the `except` handler:
build the client, read the numbers, run the early-return E.164 validation,
then call `client.messages.create` (first and only attempt). -/
def sendSmsBody (env : SmsEnv) : Except String (Bool × String) :=
  match env.clientResult with
  | .error e => .error e
  | .ok _ =>
      if ¬ validPhone (env.user_phone_number.getD "+12345678") then
        .ok (false, "Invalid phone number format. Must start with + followed by country code and number (no spaces or special characters).")
      else
        match env.createResult 0 with
        | .error e => .error e
        | .ok sid => .ok (true, sid)

/-- `send_sms(body_text)`: run the body; the `except Exception` handler logs
and returns `(False, str(e))`. -/
def send_sms (env : SmsEnv) : Bool × String :=
  match sendSmsBody env with
  | .ok r => r
  | .error e => (false, e)

/-! ## Calendar view (`create_calendar_view`, lines 578-622)

`active_tasks = [t for t in tasks if t['end_date'] is not None]` is built
first; the 15-day grid (`today + timedelta(days=x) for x in range(15)`) is
then populated only from `active_tasks`. -/

/-- The 15 grid dates of the calendar view. -/
def calendarRange (today : PyDate) : List PyDate :=
  (List.range 15).map (fun x => addDays today x)

/-- The per-date, per-task placement rule of `create_calendar_view`'s loop
over `active_tasks`: One-time on its `end_date`; Daily everywhere; Weekly on
matching weekday names; Monthly on matching day-of-month (both recurring
cases guarded by Python truthiness of the recurrence field). -/
def calendarTaskOn (t : Task) (d : PyDate) : Bool :=
  match t.task_type with
  | .Onetime => t.end_date == some d
  | .Daily => true
  | .Weekly =>
      pyTruthyStr t.week_days &&
      (pySplit (t.week_days.getD "")).contains d.dayName
  | .Monthly =>
      pyTruthyInt t.monthly_date && some d.day == t.monthly_date

/-- The tasks shown in the calendar cell of date `d`: the filter to non-NULL
`end_date` composed with the placement rule. -/
def tasksForDate (tasks : List Task) (d : PyDate) : List Task :=
  (tasks.filter (fun t => t.end_date.isSome)).filter (fun t => calendarTaskOn t d)

/-! ## Helper lemmas -/

/-- `List.contains` on strings agrees with membership. -/
theorem contains_eq_mem (l : List String) (s : String) :
    l.contains s = true ↔ s ∈ l := by
  simp [List.contains_iff_exists_mem_beq]

/-- A weekday name is never the empty string. -/
theorem dayName_ne_empty (d : PyDate) : d.dayName ≠ "" := by
  unfold PyDate.dayName
  split_ifs <;> decide

/-- A weekday name is `"Thursday"` exactly when `weekday` is 3. -/
theorem dayName_thursday (d : PyDate) : d.dayName = "Thursday" ↔ d.weekday = 3 := by
  have h7 : 0 ≤ d.weekday ∧ d.weekday < 7 := by
    unfold PyDate.weekday weekdayOfOrdinal
    omega
  unfold PyDate.dayName
  split_ifs <;> simp_all

/-! ## Claims -/

/-- Claim C3: a task is "active today" for reference date `d` iff it is
One-time with due date `d`, or Daily, or Weekly with `d`'s weekday name in
its comma-separated week-days set, or Monthly with day-of-month equal to
`d.day`; and in particular a Weekly task with day set `Monday,Wednesday` is
active exactly on Mondays and Wednesdays. -/
theorem C3_active_today_classification (t : Task) (d : PyDate) :
    (activeToday t d = true ↔
      (t.task_type = .Onetime ∧ t.end_date = some d) ∨
      t.task_type = .Daily ∨
      (t.task_type = .Weekly ∧ ∃ w, t.week_days = some w ∧ d.dayName ∈ pySplit w) ∨
      (t.task_type = .Monthly ∧ t.monthly_date = some d.day)) ∧
    (t.task_type = .Weekly → t.week_days = some "Monday,Wednesday" →
      (activeToday t d = true ↔ d.dayName = "Monday" ∨ d.dayName = "Wednesday")) := by
  constructor
  · unfold activeToday
    rcases t with ⟨id, title, desc, status, priority, ty, wd, md, ed, lc, ca⟩
    cases ty <;> simp
    cases wd with
    | none => simp
    | some w =>
      simp only [Option.some.injEq, exists_eq_left']
      constructor
      · intro h
        have hb := (Bool.and_eq_true _ _).mp h
        exact of_decide_eq_true hb.2
      · intro hmem
        have hw : w ≠ "" := by
          rintro rfl
          have hd : d.dayName = "" := by simpa [pySplit, pySplitAux] using hmem
          exact dayName_ne_empty d hd
        exact (Bool.and_eq_true _ _).mpr ⟨by simpa using hw, decide_eq_true hmem⟩
  · intro hty hwd
    unfold activeToday
    rw [hty, hwd]
    have hsplit : pySplit "Monday,Wednesday" = ["Monday", "Wednesday"] := by decide
    simp [hsplit]

/-- Witness for C3 at a concrete Weekly `Monday,Wednesday` task: it is
active on Monday 2025-01-06 (via the classification) and its generic
classification instance holds. -/
theorem C3_witness :
    activeToday ⟨1, "gym", "", .Pending, .Medium, .Weekly,
      some "Monday,Wednesday", none, none, none, none⟩ ⟨2025, 1, 6⟩ = true := by
  have h := (C3_active_today_classification
    ⟨1, "gym", "", .Pending, .Medium, .Weekly,
      some "Monday,Wednesday", none, none, none, none⟩ ⟨2025, 1, 6⟩).2 rfl rfl
  exact h.mpr (Or.inl (by decide))

/-- Claim C4: a Monthly task with day-of-month 31 is never active on any
date of a 30-day month, in both the daily-summary classification and the
calendar placement rule; the day is matched exactly, never adjusted. -/
theorem C4_monthly_31_short_month (t : Task) (d : PyDate)
    (hty : t.task_type = .Monthly) (hmd : t.monthly_date = some 31)
    (hv : d.Valid) (h30 : daysInMonth d.year d.month = 30) :
    activeToday t d = false ∧ calendarTaskOn t d = false := by
  have hday : d.day ≠ 31 := by
    rcases hv with ⟨-, -, -, -, -, h6⟩
    omega
  unfold activeToday calendarTaskOn
  rw [hty, hmd]
  simp [pyTruthyInt]
  omega

/-- Witness for C4: a Monthly day-31 task is inactive on 2025-04-15
(April has 30 days). -/
theorem C4_witness :
    activeToday ⟨1, "rent", "", .Pending, .Medium, .Monthly,
      none, some 31, none, none, none⟩ ⟨2025, 4, 15⟩ = false ∧
    calendarTaskOn ⟨1, "rent", "", .Pending, .Medium, .Monthly,
      none, some 31, none, none, none⟩ ⟨2025, 4, 15⟩ = false :=
  C4_monthly_31_short_month _ _ rfl rfl (by decide) (by decide)

/-- Counterexample to claim C2 as stated: a Pending Daily task whose
`last_completed` (2025-01-02) is not equal to the reference date
(2025-01-01) is nevertheless not counted overdue, because `task_stats`
tests `last_completed < today`, not inequality. -/
theorem C2_counterexample :
    (⟨1, "t", "", .Pending, .Medium, .Daily, none, none, none,
       some ⟨2025, 1, 2⟩, none⟩ : Task).status = .Pending ∧
    (⟨1, "t", "", .Pending, .Medium, .Daily, none, none, none,
       some ⟨2025, 1, 2⟩, none⟩ : Task).task_type = .Daily ∧
    (⟨1, "t", "", .Pending, .Medium, .Daily, none, none, none,
       some ⟨2025, 1, 2⟩, none⟩ : Task).last_completed ≠ some ⟨2025, 1, 1⟩ ∧
    isOverdue ⟨1, "t", "", .Pending, .Medium, .Daily, none, none, none,
       some ⟨2025, 1, 2⟩, none⟩ ⟨2025, 1, 1⟩ = false := by
  decide

/-- Claim C2 (amended): a task is counted overdue by `task_stats` iff it is
Pending and either One-time with a non-NULL due date strictly before today,
or recurring with `last_completed` absent or strictly before today (not
merely different from today). -/
theorem C2_overdue_amended (t : Task) (d : PyDate) :
    isOverdue t d = true ↔
      t.status = .Pending ∧
      ((t.task_type = .Onetime ∧
          ∃ e, t.end_date = some e ∧ toOrdinal e < toOrdinal d) ∨
       (t.task_type ≠ .Onetime ∧
          (t.last_completed = none ∨
           ∃ lc, t.last_completed = some lc ∧ toOrdinal lc < toOrdinal d))) := by
  unfold isOverdue dateLt
  rcases t with ⟨id, title, desc, status, priority, ty, wd, md, ed, lc, ca⟩
  cases status <;> cases ty <;> cases ed <;> cases lc <;> simp

/-- Claim C1: the code contradicts the spec (and its own "allow resetting
last completion date" comment). Toggling a Completed task back to Pending
via the Toggle Status handler leaves `last_completed` and `completed_at` at
their previous non-NULL values instead of clearing them, because
`update_task_status` with `last_completed = None` only runs
`UPDATE tasks SET status=%s`. -/
theorem C1_toggle_keeps_completion_dates :
    toggleStatus
      [⟨1, "t", "", .Completed, .Medium, .Daily, none, none, none,
         some ⟨2025, 1, 1⟩, some ⟨2025, 1, 1⟩⟩]
      ⟨1, "t", "", .Completed, .Medium, .Daily, none, none, none,
         some ⟨2025, 1, 1⟩, some ⟨2025, 1, 1⟩⟩
      ⟨2025, 1, 2⟩ =
      [⟨1, "t", "", .Pending, .Medium, .Daily, none, none, none,
         some ⟨2025, 1, 1⟩, some ⟨2025, 1, 1⟩⟩] := by
  decide

/-- The specification's wording of "a Completed task whose completed-at lies
inside the goal's period window". -/
def completedInWindow (t : Task) (w : Int × Int) : Prop :=
  t.status = .Completed ∧ ∃ c, t.completed_at = some c ∧
    w.1 ≤ toOrdinal c ∧ toOrdinal c ≤ w.2

instance (t : Task) (w : Int × Int) : Decidable (completedInWindow t w) :=
  decidable_of_iff ((t.status == Status.Completed &&
      t.completed_at.any (fun c =>
        decide (w.1 ≤ toOrdinal c) && decide (toOrdinal c ≤ w.2))) = true)
    (by cases h : t.completed_at <;> simp [completedInWindow, h, Option.any])

/-- Claim C5: for a positive target, the displayed goal progress equals the
number of Completed tasks whose completed-at lies inside the goal's period
window, divided by the target and clamped to at most 1; in particular
target 5 with 3 completed shows 0.6 and with 7 completed shows 1. -/
theorem C5_goal_progress (tasks : List Task) (period : Period) (today : PyDate)
    (target : Int) (h : 0 < target) :
    goalProgressShown tasks period today target =
      min (((tasks.filter (fun t =>
          decide (completedInWindow t (goalWindow period today)))).length : ℚ)
        / (target : ℚ)) 1 ∧
    goalProgressShown tasks period today target ≤ 1 ∧
    displayedProgress 3 5 = 0.6 ∧
    displayedProgress 7 5 = 1 := by
  have hcount : get_completed_count tasks period today =
      (tasks.filter (fun t =>
        decide (completedInWindow t (goalWindow period today)))).length := by
    unfold get_completed_count
    rw [← List.countP_eq_length_filter]
    apply List.countP_congr
    intro t ht
    cases hc : t.completed_at <;> simp [completedInWindow, hc]
  refine ⟨?_, ?_, ?_, ?_⟩
  · unfold goalProgressShown displayedProgress
    rw [hcount]
  · unfold goalProgressShown displayedProgress
    exact min_le_right _ _
  · norm_num [displayedProgress]
  · norm_num [displayedProgress]

/-- Witness for C5 at one Completed task finished on Thursday 2025-10-09
with a Weekly goal of target 2 set the same day: 1 of 2 gives progress at
most 1 and the stated count identity, and the 0.6 and 1.0 instances hold. -/
theorem C5_witness :
    goalProgressShown
      [⟨1, "t", "", .Completed, .Medium, .Daily, none, none, none,
         some ⟨2025, 10, 9⟩, some ⟨2025, 10, 9⟩⟩] .Weekly ⟨2025, 10, 9⟩ 2 ≤ 1 ∧
    displayedProgress 3 5 = 0.6 ∧
    displayedProgress 7 5 = 1 :=
  (C5_goal_progress
    [⟨1, "t", "", .Completed, .Medium, .Daily, none, none, none,
       some ⟨2025, 10, 9⟩, some ⟨2025, 10, 9⟩⟩] .Weekly ⟨2025, 10, 9⟩ 2
    (by decide)).2

/-- `goalWindow` on the Weekly period, written without the `let`. -/
theorem goalWindow_weekly (today : PyDate) :
    goalWindow .Weekly today =
      (toOrdinal today - today.weekday, toOrdinal today - today.weekday + 6) := rfl

/-- Claim C6: the Weekly goal window starts on the Monday of the reference
date's week and ends on the following Sunday, a 7-day span containing the
reference date; for a Thursday it runs from 3 days before to 3 days after. -/
theorem C6_weekly_window (today : PyDate) :
    weekdayOfOrdinal (goalWindow .Weekly today).1 = 0 ∧
    (goalWindow .Weekly today).2 = (goalWindow .Weekly today).1 + 6 ∧
    weekdayOfOrdinal (goalWindow .Weekly today).2 = 6 ∧
    (goalWindow .Weekly today).1 ≤ toOrdinal today ∧
    toOrdinal today ≤ (goalWindow .Weekly today).2 ∧
    (today.dayName = "Thursday" →
      (goalWindow .Weekly today).1 = toOrdinal today - 3 ∧
      (goalWindow .Weekly today).2 = toOrdinal today + 3) := by
  have hwk : today.weekday = (toOrdinal today + 6) % 7 := rfl
  have h := dayName_thursday today
  rw [goalWindow_weekly]
  refine ⟨?_, rfl, ?_, ?_, ?_, fun hth => ?_⟩
  · show (toOrdinal today - today.weekday + 6) % 7 = 0
    omega
  · show (toOrdinal today - today.weekday + 6 + 6) % 7 = 6
    omega
  · show toOrdinal today - today.weekday ≤ toOrdinal today
    omega
  · show toOrdinal today ≤ toOrdinal today - today.weekday + 6
    omega
  · have h3 := h.mp hth
    constructor
    · show toOrdinal today - today.weekday = toOrdinal today - 3
      omega
    · show toOrdinal today - today.weekday + 6 = toOrdinal today + 3
      omega

/-- Witness for C6 on Thursday 2025-10-09: the window starts on a Monday
and spans from three days before to three days after the reference date. -/
theorem C6_witness :
    weekdayOfOrdinal (goalWindow .Weekly ⟨2025, 10, 9⟩).1 = 0 ∧
    (goalWindow .Weekly ⟨2025, 10, 9⟩).1 = toOrdinal ⟨2025, 10, 9⟩ - 3 ∧
    (goalWindow .Weekly ⟨2025, 10, 9⟩).2 = toOrdinal ⟨2025, 10, 9⟩ + 3 :=
  ⟨(C6_weekly_window ⟨2025, 10, 9⟩).1,
   ((C6_weekly_window ⟨2025, 10, 9⟩).2.2.2.2.2 (by decide)).1,
   ((C6_weekly_window ⟨2025, 10, 9⟩).2.2.2.2.2 (by decide)).2⟩

/-- The `goals`-table invariant: no two rows share the same
`(period, start_date, end_date)` window. -/
def GoalKeyUnique (goals : List Goal) : Prop :=
  goals.Pairwise (fun a b =>
    ¬(a.period = b.period ∧ a.start_date = b.start_date ∧ a.end_date = b.end_date))

/-- Claim C7: `save_goal` preserves uniqueness of goal rows per
`(period, start_date, end_date)` window — it updates the matching row's
target in place when one exists and inserts a fresh row only when none
does. -/
theorem C7_save_goal_upsert (goals : List Goal) (period : Period) (target : Int)
    (today : PyDate) (h : GoalKeyUnique goals) :
    GoalKeyUnique (save_goal goals period target today) := by
  unfold save_goal
  cases hfind : goals.find? (fun g =>
      g.period == period && g.start_date == (goalWindow period today).1 &&
      g.end_date == (goalWindow period today).2) with
  | some existing =>
    apply List.Pairwise.map _ _ h
    intro a b hr hk
    apply hr
    by_cases ha : a.id = existing.id <;> by_cases hb : b.id = existing.id <;>
      simp [ha, hb] at hk <;> exact hk
  | none =>
    unfold GoalKeyUnique
    dsimp only
    rw [List.pairwise_append]
    refine ⟨h, List.pairwise_singleton _ _, ?_⟩
    intro a ha b hb
    simp at hb
    subst hb
    rintro ⟨h1, h2, h3⟩
    have hfa := List.find?_eq_none.mp hfind a ha
    simp at hfa
    exact absurd h3 (by simp [hfa h1 h2])

/-- Witness for C7: saving a Weekly goal on Thursday 2025-10-09 over a
table already holding the current week's row (739530..739536) keeps the
window keys unique. -/
theorem C7_witness :
    GoalKeyUnique (save_goal [⟨1, .Weekly, 3, 739530, 739536⟩] .Weekly 5
      ⟨2025, 10, 9⟩) :=
  C7_save_goal_upsert [⟨1, .Weekly, 3, 739530, 739536⟩] .Weekly 5
    ⟨2025, 10, 9⟩ (List.pairwise_singleton _ _)

/-- Claim C8: submitting the add-task form with a title that is empty or
whitespace-only reports the inline error and leaves the tasks table
unchanged (`add_task` is not invoked). -/
theorem C8_empty_title_rejected (tasks : List Task) (newId : Int)
    (title desc : String) (priority : Priority) (task_type : TaskType)
    (week_days : Option String) (monthly_date : Option Int)
    (end_date : Option PyDate) (h : title.toList.all pySpace = true) :
    submitAddTask tasks newId title desc priority task_type week_days
      monthly_date end_date = (tasks, true) := by
  have hstrip : pyStrip title = "" := by
    unfold pyStrip
    have h1 : title.toList.dropWhile pySpace = [] := by
      rw [List.dropWhile_eq_nil_iff]
      intro x hx
      exact List.all_eq_true.mp h x hx
    rw [h1]
    rfl
  unfold submitAddTask
  rw [hstrip]
  simp

/-- Witness for C8: a three-space title is rejected with no insertion. -/
theorem C8_witness :
    submitAddTask [] 1 "   " "d" .Medium .Onetime none none
      (some ⟨2025, 10, 20⟩) = ([], true) :=
  C8_empty_title_rejected [] 1 "   " "d" .Medium .Onetime none none
    (some ⟨2025, 10, 20⟩) (by decide)

/-- Claim C9: `send_sms` always returns a `(success, info)` pair and never
propagates an exception: a raise anywhere in the `try` block (client
construction or message creation) yields `(false, reason)`, a successful
creation yields `(true, sid)`, and the result depends only on the first
send attempt — there is no retry. -/
theorem C9_send_sms_no_raise (env : SmsEnv) :
    ((send_sms env).1 = false ∨
      ∃ sid, env.createResult 0 = .ok sid ∧ send_sms env = (true, sid)) ∧
    (∀ e, env.clientResult = .error e → send_sms env = (false, e)) ∧
    (∀ e, env.clientResult = .ok () →
       validPhone (env.user_phone_number.getD "+12345678") = true →
       env.createResult 0 = .error e → send_sms env = (false, e)) ∧
    (∀ sid, env.clientResult = .ok () →
       validPhone (env.user_phone_number.getD "+12345678") = true →
       env.createResult 0 = .ok sid → send_sms env = (true, sid)) ∧
    (∀ env2 : SmsEnv, env2.clientResult = env.clientResult →
       env2.user_phone_number = env.user_phone_number →
       env2.createResult 0 = env.createResult 0 →
       send_sms env2 = send_sms env) := by
  unfold send_sms sendSmsBody
  refine ⟨?_, ?_, ?_, ?_, ?_⟩
  · cases hc : env.clientResult with
    | error e => simp
    | ok u =>
      by_cases hv : validPhone (env.user_phone_number.getD "+12345678")
      · cases hcr : env.createResult 0 with
        | error e => simp [hv]
        | ok sid => right; exact ⟨sid, rfl, by simp [hv]⟩
      · simp [hv]
  · intro e hc
    rw [hc]
  · intro e hc hv hcr
    rw [hc, hcr]
    simp [hv]
  · intro sid hc hv hcr
    rw [hc, hcr]
    simp [hv]
  · intro env2 h1 h2 h3
    rw [h1, h2, h3]

/-- Witness for C9: with a working client, a valid recipient number and a
message creation returning sid `SM123`, `send_sms` returns
`(true, "SM123")`. -/
theorem C9_witness :
    send_sms ⟨.ok (), none, some "+15551234567", fun _ => .ok "SM123"⟩ =
      (true, "SM123") :=
  (C9_send_sms_no_raise
    ⟨.ok (), none, some "+15551234567", fun _ => .ok "SM123"⟩).2.2.2.1
    "SM123" rfl (by decide) rfl

/-- Claim C10: the calendar view shows only tasks with a non-NULL
`end_date`; a task whose `end_date` is NULL appears in no calendar cell at
all, whatever its type or activity. -/
theorem C10_calendar_requires_end_date (tasks : List Task) (t : Task)
    (d : PyDate) (h : t.end_date = none) :
    t ∉ tasksForDate tasks d := by
  unfold tasksForDate
  intro hmem
  have h1 := (List.mem_filter.mp hmem).1
  have h2 := (List.mem_filter.mp h1).2
  simp [h] at h2

/-- Witness for C10: a Daily task with NULL `end_date` is active on
2025-10-09 yet absent from that day's calendar cell. -/
theorem C10_witness :
    activeToday ⟨1, "water plants", "", .Pending, .Medium, .Daily,
      none, none, none, none, none⟩ ⟨2025, 10, 9⟩ = true ∧
    ⟨1, "water plants", "", .Pending, .Medium, .Daily,
      none, none, none, none, none⟩ ∉
      tasksForDate [⟨1, "water plants", "", .Pending, .Medium, .Daily,
        none, none, none, none, none⟩] ⟨2025, 10, 9⟩ :=
  ⟨by decide,
   C10_calendar_requires_end_date
     [⟨1, "water plants", "", .Pending, .Medium, .Daily,
       none, none, none, none, none⟩]
     ⟨1, "water plants", "", .Pending, .Medium, .Daily,
       none, none, none, none, none⟩ ⟨2025, 10, 9⟩ rfl⟩

end TodoApp
